import Mathlib

/-
Verification of the background enrichment pipeline of `bookmarks/threads.py`:
the deduplicating priority queue (`UniqueQueue`), the `process` decorator that
drives each worker's `process_data` slot, the thread controller's `put`, and
the specialized workers (`InfoWorker`, `ThumbnailWorker`, `TaskFolderWorker`).

Modelling conventions:
* The Python `collections.deque` held by `UniqueQueue` is a `List` whose head
  is the deque's right end: `deque.append` (used by `_put` with `force=True`)
  pushes at the head, `deque.appendleft` (the `force=False` path) pushes at
  the tail, and `deque.pop` (used by `_get`) removes the head.
* A weak reference is modelled by its resolved referent, an `Option Record`:
  `none` means the reference no longer resolves.  Liveness is taken to be
  constant during one activation (external nondeterminism is not modelled).
* External collaborators that are not part of this repository's core
  (the sidecar database, `images.ImageCache`, OpenImageIO, the filesystem
  walk, date formatting) are abstracted into an `Env` of oracle functions.
* A Python function's exit is one of: returning the reference, returning
  `None`, or raising; `PyRet` records which.
-/

namespace Bookmarks

/-- Opaque token standing for a decoded `QImage`. -/
abbrev Image := Nat

/-- Result of a Python call as seen by its caller. -/
inductive PyRet where
  | retRef : PyRet
  | retNone : PyRet
  | raised : PyRet
deriving DecidableEq, Repr

/-! ## Python string primitives

Lean's built-in `String.startsWith`, `String.splitOn`, `String.toLower` and
`String.toNat?` work on byte positions and do not reduce inside the kernel,
so the Python string operations used by `threads.py` are modelled
structurally on the character list. -/

/-- Python `s.startswith(pre)`. -/
def pyStartsWith (s pre : String) : Bool :=
  pre.data.isPrefixOf s.data

/-- Python `s.split(sep)[-1]` for a one-character separator: the characters
after the last occurrence of `sep`, the whole string when `sep` is absent
(`split` always returns a nonempty list, so `[-1]` never raises). -/
def lastSplit (sep : Char) (s : String) : String :=
  String.mk (s.data.foldl (fun acc c => if c = sep then [] else acc ++ [c]) [])

/-- Python `s.lower()`. -/
def pyLower (s : String) : String :=
  String.mk (s.data.map Char.toLower)

/-- Python `int(s)` for the decimal digit strings held in `FramesRole`
(non-digit strings, on which Python raises `ValueError`, are not exercised
by any claim). -/
def pyInt (s : String) : Nat :=
  s.data.foldl (fun acc c => acc * 10 + (c.toNat - 48)) 0

/-! ## UniqueQueue (`threads.py` lines 96-141)

The deque is a `List` with head = right end; `_put` appends at the head when
`force` is set and at the tail otherwise, `_get` pops the head. -/

/-- Model of `UniqueQueue.put` / `UniqueQueue._put`: with `force` the item goes to the
right ("hot") end of the deque (`self.queue.append(item)`), otherwise to the
left ("cold") end (`self.queue.appendleft(item)`).  The queue is unbounded
(`maxsize = 0`), so the blocking/`Full` paths of `put` are unreachable. -/
def UniqueQueue.put (item : α) (force : Bool) (q : List α) : List α :=
  if force then item :: q else q ++ [item]

/-- Model of `UniqueQueue._get`: `self.queue.pop()` removes from the right end, the
head of our list. -/
def UniqueQueue.get : List α → Option (α × List α)
  | [] => none
  | x :: xs => some (x, xs)

/-- The order in which repeated `_get` calls return the queued items. -/
def UniqueQueue.drain : List α → List α
  | [] => []
  | x :: xs => x :: UniqueQueue.drain xs

/-- Apply a sequence of submissions (item, force flag) left to right. -/
def UniqueQueue.applyPuts (subs : List (α × Bool)) (q : List α) : List α :=
  subs.foldl (fun acc s => UniqueQueue.put s.1 s.2 acc) q

/-- The forced submissions of an interleaving, in submission order. -/
def UniqueQueue.forcedItems (subs : List (α × Bool)) : List α :=
  (subs.filter fun s => s.2).map Prod.fst

/-- The normal (unforced) submissions of an interleaving, in submission order. -/
def UniqueQueue.normalItems (subs : List (α × Bool)) : List α :=
  (subs.filter fun s => !s.2).map Prod.fst

/-! ## The `process` decorator and worker state (`threads.py` lines 144-212) -/

/-- Exit of one `process_data` body as seen by the `process` wrapper:
either a normal return (of a reference or of `None`/falsy) or an exception. -/
inductive StepOutcome (ρ : Type) where
  | ok : Option ρ → StepOutcome ρ
  | exc : StepOutcome ρ
deriving DecidableEq

/-- A worker's mutable state: the `interrupt` flag and the `data_queue`
(deque head = next item `_get` returns). -/
structure WorkerState (ρ : Type) where
  interrupt : Bool
  queue : List ρ
deriving DecidableEq

/-- The `process` decorator's `func_wrapper`: dequeue one item with
`get(False)` (an empty queue raises `Queue.Empty`, which is caught), run the
wrapped body, emit `dataReady` only when the body returned a truthy result,
swallow every other exception, and in all cases clear `self.interrupt` in the
`finally` block.  The second component is the emitted `dataReady` payload,
`none` when nothing is emitted.  The body receives the current `interrupt`
flag, as `process_data` reads `self.interrupt`. -/
def activate (step : Bool → ρ → StepOutcome ρ) (w : WorkerState ρ) :
    WorkerState ρ × Option ρ :=
  match w.queue with
  | [] => (⟨false, []⟩, none)
  | r :: rest =>
    match step w.interrupt r with
    | StepOutcome.ok none => (⟨false, rest⟩, none)
    | StepOutcome.ok (some v) => (⟨false, rest⟩, some v)
    | StepOutcome.exc => (⟨false, rest⟩, none)

/-- Model of `BaseWorker.reset_queue`: raise the `interrupt` flag and drain the queue. -/
def BaseWorker.reset_queue (w : WorkerState ρ) : WorkerState ρ :=
  { w with interrupt := true, queue := [] }

/-- Model of `BaseThread.put` (lines 269-287): clear the worker's interrupt flag, then
with `force` call `data_queue.put(ref)` (note: the queue-level `force` keyword
is not passed, so the queue uses its default `force=False` placement), and
without `force` do the same only if the reference is not already in the
deque.  `Queue.Full` can not occur on an unbounded queue. -/
def BaseThread.put [DecidableEq α] (w : WorkerState α) (r : α) (force : Bool) :
    WorkerState α :=
  let w' : WorkerState α := { w with interrupt := false }
  if force then { w' with queue := UniqueQueue.put r false w'.queue }
  else if r ∈ w'.queue then w'
  else { w' with queue := UniqueQueue.put r false w'.queue }

/-! ## Records and the external environment

A `Record` is one `DataDict` item of the owning model; its fields are the Qt
item roles that the workers read or write (`common.FileInfoLoaded`,
`common.FileThumbnailLoaded`, `common.FlagsRole`, ...). -/

/-- One `os.DirEntry` kept in `common.EntryRole`; only the fields the workers
read (`entry.stat().st_mtime`, `entry.stat().st_size`) are modelled.
Modification times are compared and copied, never computed with, so `Nat`
suffices for the Python float. -/
structure Entry where
  st_mtime : Nat
  st_size : Nat
deriving DecidableEq, Repr

/-- Value of `common.TypeRole`. -/
inductive RecType where
  | sequenceItem : RecType
  | fileItem : RecType
  | other : RecType
deriving DecidableEq, Repr

/-- A model `DataDict` record, restricted to the roles used by `threads.py`.
`seqG1`, `seqG3`, `seqG4` are `seq.group(1)`, `seq.group(3)`, `seq.group(4)`
of the compiled sequence match stored in `common.SequenceRole`. -/
structure Record where
  fileInfoLoaded : Bool
  fileThumbnailLoaded : Bool
  flags : Nat
  description : Option String
  todoCount : Nat
  typeRole : RecType
  frames : List String
  seqG1 : String
  seqG3 : String
  seqG4 : String
  entries : List Entry
  sortBySize : Nat
  sortByLastModified : Nat
  statusTip : String
  toolTip : String
  displayRole : String
  editRole : String
  startpath : String
  endpath : String
  fileDetails : String
  thumbnailPath : String
  thumbnail : Option Image
  defaultThumbnail : Image
  sizeHintHeight : Nat
deriving DecidableEq, Repr

/-- One note of the decoded sidecar `notes` blob: `v[k]['text']` and
`v[k]['checked']`. -/
structure Note where
  text : String
  checked : Bool
deriving DecidableEq, Repr

/-- Pieces of `QDateTime.toString` for one modification time:
`toString('dd')`, `toString('MM')`, `toString('yyyy')`, `toString('hh')`,
`toString('mm')`. -/
structure DateParts where
  dd : String
  MM : String
  yyyy : String
  hh : String
  mm : String
deriving DecidableEq, Repr

/-- Oracles for the external collaborators of the workers.  These stand for
`bookmark_db`, `images.ImageCache`, `OpenImageIO`, `defaultpaths`, the
filesystem, and the `bookmarks.common` helpers, none of which are part of the
verified core (`Except.error` marks a call that raises). -/
structure Env where
  /-- Whether `bookmark_db.get_db(...)` returned a truthy handle. -/
  hasDb : Bool
  /-- Value of `db.value(k, 'description')`. -/
  dbDescription : Option String
  /-- Value of `db.value(k, 'notes')`, decoded: `none` = falsy value, `some none` =
  base64/json decode raised (logged, count stays 0), `some (some l)` = the
  decoded note dictionary. -/
  dbNotes : Option (Option (List Note))
  /-- Value of `db.value(k, 'flags')`. -/
  dbFlags : Option Nat
  /-- Result of `db.thumbnail_path(k)`. -/
  thumbPathOf : String → String
  /-- Result of `common.get_ranges(intframes, padding)`. -/
  getRanges : List Nat → Nat → String
  /-- Pieces of `common.qlast_modified(mtime).toString(...)`. -/
  dateOf : Nat → DateParts
  /-- Result of `common.byte_to_string(size)`. -/
  byteToString : Nat → String
  /-- The `common.MarkedAsArchived` flag bit. -/
  markedAsArchived : Nat
  /-- Result of `QtCore.QFileInfo(path).exists()`. -/
  fileExists : String → Bool
  /-- Behaviour of `images.ImageCache.get(path, height, overwrite=True)`: may raise, or
  return a falsy `None`, or an image. -/
  imageGet : String → Nat → Except Unit (Option Image)
  /-- Value of `defaultpaths.get_extensions(defaultpaths.OpenImageIOFilter)`. -/
  oiioExtensions : List String
  /-- Source resolution: `common.get_sequence_startpath(source)` when
  `common.is_collapsed(source)`, identity otherwise. -/
  resolveSource : String → String
  /-- Result of `QtCore.QFileInfo(source).size()`. -/
  fileSize : String → Nat
  /-- Behaviour of `images.ImageCache.oiio_make_thumbnail(source, dest, size)`: may raise
  or return a success flag. -/
  makeThumb : String → String → Except Unit Bool
  /-- Result of `common.walk(path)`: the `entry.name` of each walked entry, in order. -/
  walk : String → List String

/-! ## InfoWorker (`threads.py` lines 290-510) -/

/-- Qt constant `QtCore.Qt.ItemIsEditable`. -/
def ItemIsEditable : Nat := 2

/-- Qt constant `QtCore.Qt.ItemIsDragEnabled`. -/
def ItemIsDragEnabled : Nat := 4

/-- The `notes` count (lines 351-361): the number of notes with a truthy
`text` and a falsy `checked`; 0 when the value is falsy or decoding raised. -/
def notesCount : Option (Option (List Note)) → Nat
  | none => 0
  | some none => 0
  | some (some l) => (l.filter fun n => !(n.text == "") && !n.checked).length

/-- The sidecar-database phase of `process_file_information` (lines 338-378):
description, todo count, and flags, all under one transaction. -/
def dbPhase (env : Env) (r : Record) : Record :=
  let r1 :=
    match env.dbDescription with
    | some s => if s = "" then r else { r with description := some s }
    | none => r
  let r2 := { r1 with todoCount := notesCount env.dbNotes }
  let fl := r2.flags ||| ItemIsEditable ||| ItemIsDragEnabled
  let fl :=
    match env.dbFlags with
    | some v => if v = 0 then fl else fl ||| v
    | none => fl
  { r2 with flags := fl }

/-- Python `str(n).zfill(width)` for a natural number. -/
def zfill (n : Nat) (width : Nat) : String :=
  let s := toString n
  String.mk (List.replicate (width - s.length) '0') ++ s

/-- Python `min` over a nonempty list (`0` is never reached: the caller
guards against the empty list, on which Python raises). -/
def listMin : List Nat → Nat
  | [] => 0
  | x :: xs => xs.foldl Nat.min x

/-- Python `max` over a nonempty list. -/
def listMax : List Nat → Nat
  | [] => 0
  | x :: xs => xs.foldl Nat.max x

/-- Python `s.split('/')[-1]`. -/
def lastSlashPart (s : String) : String :=
  lastSplit '/' s

/-- The sequence phase of `process_file_information` (lines 384-474), applied
when `TypeRole == SequenceItem`.  Returns `none` when `FramesRole` is empty:
`padding = len(frs[0])` then raises `IndexError`.  Frame strings are decimal
digit strings (`int(f)`); non-numeric frames, which would raise `ValueError`
in Python, are not exercised by any claim and parse to 0 here. -/
def seqUpdate (env : Env) (r : Record) : Option Record :=
  match r.frames with
  | [] => none
  | f0 :: _ =>
    let intframes := r.frames.map pyInt
    let padding := f0.length
    let rangestring := env.getRanges intframes padding
    let startpath := r.seqG1 ++ zfill (listMin intframes) padding ++ r.seqG3 ++ "." ++ r.seqG4
    let endpath := r.seqG1 ++ zfill (listMax intframes) padding ++ r.seqG3 ++ "." ++ r.seqG4
    let seqpath := r.seqG1 ++ "[" ++ rangestring ++ "]" ++ r.seqG3 ++ "." ++ r.seqG4
    let thumbK := r.seqG1 ++ "[0]" ++ r.seqG3 ++ "." ++ r.seqG4
    let seqname := lastSlashPart seqpath
    let r1 := { r with
      startpath := startpath
      endpath := endpath
      statusTip := seqpath
      toolTip := seqpath
      displayRole := seqname
      editRole := seqname
      thumbnailPath := env.thumbPathOf thumbK }
    if r1.entries.isEmpty then some r1
    else
      let mtime := (r1.entries.map Entry.st_mtime).foldl Nat.max 0
      let size := r1.sortBySize + (r1.entries.map Entry.st_size).sum
      let dp := env.dateOf mtime
      let info := toString intframes.length ++ "f;" ++
        dp.dd ++ "/" ++ dp.MM ++ "/" ++ dp.yyyy ++ " " ++
        dp.hh ++ ":" ++ dp.mm ++ ";" ++ env.byteToString size
      some { r1 with
        sortBySize := size
        sortByLastModified := mtime
        fileDetails := info }

/-- The single-file phase of `process_file_information` (lines 478-501),
applied when `TypeRole == FileItem`: stat of `EntryRole[0]` when `EntryRole`
is truthy, then the thumbnail-cache path in every case. -/
def filePhase (env : Env) (r : Record) : Record :=
  let r1 :=
    match r.entries with
    | [] => r
    | e0 :: _ =>
      let dp := env.dateOf e0.st_mtime
      let info := dp.dd ++ "/" ++ dp.MM ++ "/" ++ dp.yyyy ++ " " ++
        dp.hh ++ ":" ++ dp.mm ++ ";" ++ env.byteToString e0.st_size
      { r with
        sortByLastModified := e0.st_mtime
        sortBySize := e0.st_size
        fileDetails := info }
  { r1 with thumbnailPath := env.thumbPathOf r1.statusTip }

/-- The tail of `process_file_information`: the `FileItem` branch (skipped
for sequence records), then `FileInfoLoaded = True` and return of the ref. -/
def finishInfo (env : Env) (r : Record) : Option Record × PyRet :=
  let r1 := if r.typeRole = RecType.fileItem then filePhase env r else r
  (some { r1 with fileInfoLoaded := true }, PyRet.retRef)

/-- Model of `InfoWorker.process_file_information` (lines 308-510): returns the new
heap contents together with how the call exited.  An already-loaded record
returns the ref untouched; a falsy database handle returns `None`; otherwise
the database, sequence and file phases run and the record is marked loaded.
Liveness is constant, so the per-step `if not ref()` re-checks never fire for
a live record and always fire for a dead one. -/
def process_file_information (env : Env) (heap : Option Record) :
    Option Record × PyRet :=
  match heap with
  | none => (none, PyRet.retNone)
  | some r =>
    if r.fileInfoLoaded then (some r, PyRet.retRef)
    else if !env.hasDb then (some r, PyRet.retNone)
    else
      let r1 := dbPhase env r
      if r1.typeRole = RecType.sequenceItem then
        match seqUpdate env r1 with
        | none => (some r1, PyRet.raised)
        | some r2 => finishInfo env r2
      else finishInfo env r1

/-- Model of `InfoWorker.process_data` (lines 297-306).  Note that when
`process_file_information` returns `None`, the subsequent `if not ref():`
calls `None()` and raises `TypeError`, which the `process` wrapper catches;
so a `retNone` from the inner call surfaces as `raised` here. -/
def InfoWorker.process_data (intr : Bool) (env : Env) (heap : Option Record) :
    Option Record × PyRet :=
  match heap with
  | none => (none, PyRet.retNone)
  | some r =>
    if intr then (some r, PyRet.retNone)
    else
      match process_file_information env (some r) with
      | (h, PyRet.retRef) => (h, PyRet.retRef)
      | (h, PyRet.retNone) => (h, PyRet.raised)
      | (h, PyRet.raised) => (h, PyRet.raised)

/-- Adapter for `InfoWorker.process_data` as a step body for the `process` wrapper: a
returned reference resolves to the updated record. -/
def InfoWorker.step (env : Env) (intr : Bool) (h : Option Record) :
    StepOutcome (Option Record) :=
  match InfoWorker.process_data intr env h with
  | (h', PyRet.retRef) => StepOutcome.ok (some h')
  | (_, PyRet.retNone) => StepOutcome.ok none
  | (_, PyRet.raised) => StepOutcome.exc

/-! ## ThumbnailWorker (`threads.py` lines 559-695) -/

/-- Python `source.split('.')[-1].lower()`. -/
def lastExt (s : String) : String :=
  pyLower (lastSplit '.' s)

/-- The hard source-size ceiling of `process_thumbnail`:
`pow(1024, 3) * 2` bytes. -/
def thumbSizeCeiling : Nat := 1024 ^ 3 * 2

/-- Result of one `ThumbnailWorker.process_thumbnail` call: the new heap, the
truthiness of the returned value as seen by `if not self.process_thumbnail(ref)`
(a `return` of `True` is truthy; `False` and the implicit `None` after a
caught exception are falsy), whether an exception escaped the call, and
whether `oiio_make_thumbnail` was invoked. -/
structure ThumbCall where
  heap : Option Record
  truthy : Bool
  raised : Bool
  generatorCalled : Bool
deriving DecidableEq

/-- Model of `ThumbnailWorker.process_thumbnail` (lines 639-695).  A dead reference
hits `return False`, but the `finally` block then evaluates
`cache.invalidate(source, ...)` with `source` unbound, raising `NameError`
out of the call.  For a live record: the oversized-source guard returns
`False` before the generator is invoked (the `finally` block still sets
`FileThumbnailLoaded = True`); a raising generator or decode is caught by the
bare `except`, which sets the placeholder `DefaultThumbnailRole` image; a
generator returning falsy yields `return False` with no placeholder; on
success the freshly decoded image (possibly a falsy `None` — the code stores
it without checking) is written and `True` returned. -/
def ThumbnailWorker.process_thumbnail (env : Env) (heap : Option Record) :
    ThumbCall :=
  match heap with
  | none => ⟨none, false, true, false⟩
  | some r =>
    let source := env.resolveSource r.statusTip
    let dest := r.thumbnailPath
    if thumbSizeCeiling ≤ env.fileSize source then
      ⟨some { r with fileThumbnailLoaded := true }, false, false, false⟩
    else
      match env.makeThumb source dest with
      | Except.error _ =>
        ⟨some { r with thumbnail := some r.defaultThumbnail,
                       fileThumbnailLoaded := true }, false, false, true⟩
      | Except.ok false =>
        ⟨some { r with fileThumbnailLoaded := true }, false, false, true⟩
      | Except.ok true =>
        match env.imageGet dest r.sizeHintHeight with
        | Except.error _ =>
          ⟨some { r with thumbnail := some r.defaultThumbnail,
                         fileThumbnailLoaded := true }, false, false, true⟩
        | Except.ok img =>
          ⟨some { r with thumbnail := img, fileThumbnailLoaded := true },
            true, false, true⟩

/-- Result of one `ThumbnailWorker.process_data` body: the new heap, how the
body exited, and whether the external generator was invoked anywhere. -/
structure ThumbStep where
  heap : Option Record
  ret : PyRet
  generatorCalled : Bool
deriving DecidableEq

/-- Model of `ThumbnailWorker.process_data` (lines 560-637): abort on a dead ref,
interrupt, `MarkedAsArchived`, a never-arriving `FileInfoLoaded` (the wait
loop times out after ~2s; liveness and `FileInfoLoaded` are constant in this
model, so an unloaded record always times out), or an already loaded
thumbnail.  A cached thumbnail file is decoded and stored (a falsy decode
aborts).  Otherwise, for a decodable extension, `FileThumbnailLoaded` is
first forced to `False`, `process_thumbnail` runs, and only a truthy result
re-marks the record loaded and returns the ref. -/
def ThumbnailWorker.process_data (env : Env) (intr : Bool)
    (heap : Option Record) : ThumbStep :=
  match heap with
  | none => ⟨none, PyRet.retNone, false⟩
  | some r =>
    if intr then ⟨some r, PyRet.retNone, false⟩
    else if r.flags &&& env.markedAsArchived ≠ 0 then ⟨some r, PyRet.retNone, false⟩
    else if !r.fileInfoLoaded then ⟨some r, PyRet.retNone, false⟩
    else if r.fileThumbnailLoaded then ⟨some r, PyRet.retNone, false⟩
    else if env.fileExists r.thumbnailPath then
      match env.imageGet r.thumbnailPath r.sizeHintHeight with
      | Except.error _ => ⟨some r, PyRet.raised, false⟩
      | Except.ok none => ⟨some r, PyRet.retNone, false⟩
      | Except.ok (some img) =>
        ⟨some { r with thumbnail := some img, fileThumbnailLoaded := true },
          PyRet.retRef, false⟩
    else if !(env.oiioExtensions.contains (lastExt r.statusTip)) then
      ⟨some r, PyRet.retNone, false⟩
    else
      let pt := ThumbnailWorker.process_thumbnail env
        (some { r with fileThumbnailLoaded := false })
      if pt.raised then ⟨pt.heap, PyRet.raised, pt.generatorCalled⟩
      else if !pt.truthy then ⟨pt.heap, PyRet.retNone, pt.generatorCalled⟩
      else
        match pt.heap with
        | none => ⟨none, PyRet.retNone, pt.generatorCalled⟩
        | some r2 =>
          ⟨some { r2 with fileThumbnailLoaded := true }, PyRet.retRef,
            pt.generatorCalled⟩

/-! ## TaskFolderWorker (`threads.py` lines 698-728) -/

/-- The counting loop of `TaskFolderWorker.process_data` (lines 712-720):
skip entries whose name starts with a dot, else increment, and `break` once
the count exceeds 999 — so the loop can stop at the value 1000, which is what
gets stored. -/
def countLoop : List String → Nat → Nat
  | [], c => c
  | n :: rest, c =>
    if pyStartsWith n "." then countLoop rest c
    else
      let c' := c + 1
      if 999 < c' then c' else countLoop rest c'

/-- The per-sub-record body of `TaskFolderWorker.process_data`: walk the
sub-record's path and store the (capped) count in `TodoCountRole`. -/
def TaskFolderWorker.updateSub (env : Env) (f : Record) : Record :=
  { f with todoCount := countLoop (env.walk f.statusTip) 0 }

/-- Model of `TaskFolderWorker.process_data` (lines 699-728): for a live parent whose
sub-records stay live (liveness is constant here), every sub-record gets its
count written and is emitted on `dataReady` individually, in order; the body
then returns `None`, so the `process` wrapper emits nothing for the parent.
The middle component collects the `dataReady` emissions made directly by the
body. -/
def TaskFolderWorker.process_data (env : Env) (intr : Bool)
    (heap : Option (List Record)) :
    Option (List Record) × List Record × PyRet :=
  match heap with
  | none => (none, [], PyRet.retNone)
  | some vals =>
    if intr then (some vals, [], PyRet.retNone)
    else
      let updated := vals.map (TaskFolderWorker.updateSub env)
      (some updated, updated, PyRet.retNone)

/-! ## Concrete sample records and environments used by witnesses and
counterexamples -/

/-- A base record with all fields at neutral values. -/
def sampleRecord : Record where
  fileInfoLoaded := false
  fileThumbnailLoaded := false
  flags := 0
  description := none
  todoCount := 0
  typeRole := RecType.other
  frames := []
  seqG1 := ""
  seqG3 := ""
  seqG4 := ""
  entries := []
  sortBySize := 0
  sortByLastModified := 0
  statusTip := ""
  toolTip := ""
  displayRole := ""
  editRole := ""
  startpath := ""
  endpath := ""
  fileDetails := ""
  thumbnailPath := ""
  thumbnail := none
  defaultThumbnail := 0
  sizeHintHeight := 0

/-- A base environment with neutral oracles. -/
def sampleEnv : Env where
  hasDb := true
  dbDescription := none
  dbNotes := none
  dbFlags := none
  thumbPathOf := fun _ => "cache/thumb.png"
  getRanges := fun _ _ => "1-5"
  dateOf := fun _ => ⟨"01", "02", "2020", "10", "30"⟩
  byteToString := fun n => toString n
  markedAsArchived := 1048576
  fileExists := fun _ => false
  imageGet := fun _ _ => Except.ok none
  oiioExtensions := ["png", "exr"]
  resolveSource := fun s => s
  fileSize := fun _ => 0
  makeThumb := fun _ _ => Except.ok false
  walk := fun _ => []

/-- A live record already marked `FileInfoLoaded`. -/
def rec1 : Record := { sampleRecord with fileInfoLoaded := true }

/-- A live, info-loaded record on the thumbnail-generation path: not
archived, no cached thumbnail, a decodable extension, and a distinguishable
placeholder image. -/
def r0 : Record := { sampleRecord with
  fileInfoLoaded := true
  statusTip := "big.exr"
  thumbnailPath := "cache/big.png"
  defaultThumbnail := 7 }

/-- An environment whose filesystem reports every source at exactly the hard
size ceiling. -/
def env0 : Env := { sampleEnv with fileSize := fun _ => thumbSizeCeiling }

/-- An environment whose walk yields 1000 visible entries for every path. -/
def env2 : Env := { sampleEnv with walk := fun _ => List.replicate 1000 "e" }

/-- A live sequence record with frames 1, 2, 3, 5 at zero-padding 4. -/
def rec3 : Record := { sampleRecord with
  typeRole := RecType.sequenceItem
  frames := ["0001", "0002", "0003", "0005"]
  seqG1 := "shot_v"
  seqG3 := "_comp"
  seqG4 := "exr"
  entries := [⟨100, 50⟩] }

/-! ## Theorems -/

theorem drain_eq (q : List α) : UniqueQueue.drain q = q := by
  induction q with
  | nil => rfl
  | cons x xs ih => simp [UniqueQueue.drain, ih]

theorem applyPuts_eq (subs : List (α × Bool)) :
    ∀ q : List α, UniqueQueue.applyPuts subs q =
      (UniqueQueue.forcedItems subs).reverse ++ q ++ UniqueQueue.normalItems subs := by
  induction subs with
  | nil =>
    intro q
    simp [UniqueQueue.applyPuts, UniqueQueue.forcedItems, UniqueQueue.normalItems]
  | cons s rest ih =>
    intro q
    obtain ⟨a, b⟩ := s
    cases b
    · have h : UniqueQueue.applyPuts ((a, false) :: rest) q =
          UniqueQueue.applyPuts rest (q ++ [a]) := rfl
      rw [h, ih]
      simp [UniqueQueue.forcedItems, UniqueQueue.normalItems]
    · have h : UniqueQueue.applyPuts ((a, true) :: rest) q =
          UniqueQueue.applyPuts rest (a :: q) := rfl
      rw [h, ih]
      simp [UniqueQueue.forcedItems, UniqueQueue.normalItems]

/-- C1: starting from an empty `UniqueQueue`, after any interleaving of
normal and forced submissions with no intervening dequeues, the dequeue
order is all forced submissions in reverse submission order (LIFO), followed
by the normal submissions in submission order (FIFO).  In particular each
forced submission is dequeued before every already-queued normal item but
after every later-forced item, hence after any previously forced item only
when no further force intervenes — exactly the order given by the reversed
forced list. -/
theorem uniqueQueue_forced_lifo_normals_fifo (subs : List (α × Bool)) :
    UniqueQueue.drain (UniqueQueue.applyPuts subs []) =
      (UniqueQueue.forcedItems subs).reverse ++ UniqueQueue.normalItems subs := by
  rw [drain_eq, applyPuts_eq]
  simp

/-- C2: `BaseThread.put` with `force=True` does not forward the flag to
`UniqueQueue.put`, so the reference lands at the queue's default cold end
(`appendleft`): the resulting queue equals a normal `force=False` queue
insertion, the reference is dequeued after every already-queued item, and
when the reference is not already queued the only effect of `force=True` is
to skip the duplicate-membership check (both calls coincide). -/
theorem baseThread_put_force_not_forwarded [DecidableEq α]
    (w : WorkerState α) (r : α) :
    (BaseThread.put w r true).queue = UniqueQueue.put r false w.queue ∧
    UniqueQueue.drain (BaseThread.put w r true).queue =
      UniqueQueue.drain w.queue ++ [r] ∧
    (r ∉ w.queue → BaseThread.put w r true = BaseThread.put w r false) := by
  refine ⟨rfl, ?_, ?_⟩
  · rw [drain_eq, drain_eq]
    rfl
  · intro hmem
    simp [BaseThread.put, hmem]

/-- Witness for C2 at a concrete queue: worker interrupted, queue `[1, 2]`,
reference `3` not yet queued. -/
theorem baseThread_put_force_not_forwarded_witness :
    (BaseThread.put (⟨true, [1, 2]⟩ : WorkerState Nat) 3 true).queue =
      UniqueQueue.put 3 false [1, 2] ∧
    UniqueQueue.drain (BaseThread.put (⟨true, [1, 2]⟩ : WorkerState Nat) 3 true).queue =
      UniqueQueue.drain [1, 2] ++ [3] ∧
    BaseThread.put (⟨true, [1, 2]⟩ : WorkerState Nat) 3 true =
      BaseThread.put (⟨true, [1, 2]⟩ : WorkerState Nat) 3 false := by
  obtain ⟨h1, h2, h3⟩ :=
    baseThread_put_force_not_forwarded (⟨true, [1, 2]⟩ : WorkerState Nat) 3
  exact ⟨h1, h2, h3 (by decide)⟩

/-- C3: submitting the same reference twice through `BaseThread.put` without
`force`, before any dequeue, leaves the reference in the queue exactly once
(the second submission is dropped by the membership check), so draining the
queue dequeues it exactly once. -/
theorem baseThread_put_twice_once [DecidableEq α] (w : WorkerState α) (r : α)
    (h : w.queue.count r = 0) :
    ((BaseThread.put (BaseThread.put w r false) r false).queue.count r = 1) ∧
    ((UniqueQueue.drain
      (BaseThread.put (BaseThread.put w r false) r false).queue).count r = 1) := by
  have hmem : r ∉ w.queue := by
    rw [← List.count_eq_zero]
    exact h
  have h1 : BaseThread.put w r false =
      ⟨false, w.queue ++ [r]⟩ := by
    simp [BaseThread.put, hmem, UniqueQueue.put]
  have hmem2 : r ∈ w.queue ++ [r] := by simp
  have h2 : BaseThread.put (⟨false, w.queue ++ [r]⟩ : WorkerState α) r false =
      ⟨false, w.queue ++ [r]⟩ := by
    simp [BaseThread.put, hmem2]
  rw [h1, h2, drain_eq]
  simp [List.count_append, h]

/-- Witness for C3: an interrupted worker with queue `[1, 2]` receiving `5`
twice. -/
theorem baseThread_put_twice_once_witness :
    ([1, 2] : List Nat).count 5 = 0 ∧
    ((BaseThread.put (BaseThread.put (⟨true, [1, 2]⟩ : WorkerState Nat) 5 false)
        5 false).queue.count 5 = 1) ∧
    ((UniqueQueue.drain
      (BaseThread.put (BaseThread.put (⟨true, [1, 2]⟩ : WorkerState Nat) 5 false)
        5 false).queue).count 5 = 1) := by
  obtain ⟨h1, h2⟩ :=
    baseThread_put_twice_once (⟨true, [1, 2]⟩ : WorkerState Nat) 5 (by decide)
  exact ⟨by decide, h1, h2⟩

/-- C4: dequeuing a reference that no longer resolves to a live record makes
`InfoWorker.process_data` return `None` immediately — no record exists to be
mutated, the heap stays empty — and one `activate` cycle on such a queue head
emits no `dataReady` event and simply drops the item. -/
theorem infoWorker_dead_ref_no_effect (intr wintr : Bool) (env : Env)
    (rest : List (Option Record)) :
    InfoWorker.process_data intr env none = (none, PyRet.retNone) ∧
    activate (InfoWorker.step env) ⟨wintr, none :: rest⟩ = (⟨false, rest⟩, none) := by
  constructor
  · rfl
  · simp [activate, InfoWorker.step, InfoWorker.process_data]

/-- C9: when the wrapped step body raises, `activate` returns normally (the
bare `except` swallows the exception), emits no `dataReady`, drops the item
without requeuing it, and leaves the worker with a cleared interrupt flag and
the remaining queue, so a subsequent activation dequeues and processes the
next item exactly as usual. -/
theorem activate_exception_dropped {ρ : Type}
    (step : Bool → ρ → StepOutcome ρ) (w : WorkerState ρ) (r : ρ)
    (rest : List ρ) (hq : w.queue = r :: rest)
    (hexc : step w.interrupt r = StepOutcome.exc) :
    activate step w = (⟨false, rest⟩, none) ∧
    (∀ (r2 : ρ) (rest2 : List ρ) (v : ρ), rest = r2 :: rest2 →
      step false r2 = StepOutcome.ok (some v) →
      activate step ⟨false, rest⟩ = (⟨false, rest2⟩, some v)) := by
  constructor
  · unfold activate
    rw [hq]
    simp [hexc]
  · intro r2 rest2 v hrest hok
    unfold activate
    rw [hrest]
    simp [hok]

/-- Witness for C9: a step that raises on item `7` and succeeds on item `8`,
on an interrupted worker whose queue is `[7, 8]`. -/
theorem activate_exception_dropped_witness :
    activate
      (fun (_ : Bool) (n : Nat) =>
        if n = 7 then StepOutcome.exc else StepOutcome.ok (some n))
      ⟨true, [7, 8]⟩ = (⟨false, [8]⟩, none) ∧
    activate
      (fun (_ : Bool) (n : Nat) =>
        if n = 7 then StepOutcome.exc else StepOutcome.ok (some n))
      ⟨false, [8]⟩ = (⟨false, []⟩, some 8) := by
  obtain ⟨h1, h2⟩ := activate_exception_dropped
    (fun (_ : Bool) (n : Nat) =>
      if n = 7 then StepOutcome.exc else StepOutcome.ok (some n))
    ⟨true, [7, 8]⟩ 7 [8] rfl (by decide)
  exact ⟨h1, h2 8 [] 8 rfl (by decide)⟩

/-- C10: the `finally` block of the `process` wrapper clears `interrupt` on
every exit path — step succeeded, step returned empty, queue empty, or step
raised — for every step body and every worker state, including the state
left by `BaseWorker.reset_queue`; the next submission is processed with a
clear flag. -/
theorem activate_clears_interrupt {ρ : Type}
    (step : Bool → ρ → StepOutcome ρ) (w : WorkerState ρ) :
    (activate step w).1.interrupt = false ∧
    (activate step (BaseWorker.reset_queue w)).1.interrupt = false := by
  constructor <;>
  · unfold activate
    split
    · rfl
    · split <;> rename_i o _ <;> first | (cases o <;> rfl) | rfl

/-- C6 (amended): for a live record already marked `FileInfoLoaded`, the
Metadata Worker's step writes no record field (the record is returned
untouched), but the step returns the reference rather than empty, so the
`process` wrapper does emit a `dataReady` (`item_ready`) event for that
activation. -/
theorem infoWorker_loaded_noop_but_emits (env : Env) (r : Record)
    (rest : List (Option Record)) (h : r.fileInfoLoaded = true) :
    InfoWorker.process_data false env (some r) = (some r, PyRet.retRef) ∧
    activate (InfoWorker.step env) ⟨false, some r :: rest⟩ =
      (⟨false, rest⟩, some (some r)) := by
  have hpd : InfoWorker.process_data false env (some r) = (some r, PyRet.retRef) := by
    simp [InfoWorker.process_data, process_file_information, h]
  refine ⟨hpd, ?_⟩
  simp [activate, InfoWorker.step, hpd]

/-- Witness for C6's amended statement at a concrete loaded record. -/
theorem infoWorker_loaded_noop_but_emits_witness :
    InfoWorker.process_data false sampleEnv (some rec1) = (some rec1, PyRet.retRef) ∧
    activate (InfoWorker.step sampleEnv) ⟨false, [some rec1]⟩ =
      (⟨false, []⟩, some (some rec1)) :=
  infoWorker_loaded_noop_but_emits sampleEnv rec1 [] rfl

/-- Counterexample to C6 as stated: at the concrete loaded record `rec1` the
step does not return empty and `activate` does emit an `item_ready` event. -/
theorem infoWorker_loaded_emits_counterexample :
    rec1.fileInfoLoaded = true ∧
    (InfoWorker.process_data false sampleEnv (some rec1)).2 ≠ PyRet.retNone ∧
    (activate (InfoWorker.step sampleEnv) ⟨false, [some rec1]⟩).2 ≠ none := by
  refine ⟨rfl, ?_, ?_⟩ <;> decide

theorem process_thumbnail_oversized (env : Env) (r : Record)
    (hs : thumbSizeCeiling ≤ env.fileSize (env.resolveSource r.statusTip)) :
    ThumbnailWorker.process_thumbnail env (some r) =
      ⟨some { r with fileThumbnailLoaded := true }, false, false, false⟩ := by
  unfold ThumbnailWorker.process_thumbnail
  simp [hs]

/-- C5 (amended): for a live record whose (resolved) source file size is at
or above the hard ceiling, `oiio_make_thumbnail` is never invoked, on any
path of `ThumbnailWorker.process_data`; and a record reaching the generation
path (not archived, info loaded, thumbnail not yet loaded, no cached
thumbnail file, decodable extension) completes with
`FileThumbnailLoaded = true`, no emitted reference, and its thumbnail image
left unchanged — the placeholder is not set on this path. -/
theorem thumbnailWorker_oversized (env : Env) (r : Record)
    (harch : r.flags &&& env.markedAsArchived = 0)
    (hinfo : r.fileInfoLoaded = true)
    (hthumb : r.fileThumbnailLoaded = false)
    (hcache : env.fileExists r.thumbnailPath = false)
    (hext : env.oiioExtensions.contains (lastExt r.statusTip) = true)
    (hsize : thumbSizeCeiling ≤ env.fileSize (env.resolveSource r.statusTip)) :
    (∀ (intr : Bool) (r' : Record),
        thumbSizeCeiling ≤ env.fileSize (env.resolveSource r'.statusTip) →
        (ThumbnailWorker.process_data env intr (some r')).generatorCalled = false) ∧
    ThumbnailWorker.process_data env false (some r) =
      ⟨some { r with fileThumbnailLoaded := true }, PyRet.retNone, false⟩ := by
  constructor
  · intro intr r' hs'
    have hpt := process_thumbnail_oversized env { r' with fileThumbnailLoaded := false }
      (by simpa using hs')
    simp only [ThumbnailWorker.process_data, hpt]
    split_ifs <;> try rfl
    split <;> rfl
  · simp [ThumbnailWorker.process_data, harch, hinfo, hthumb, hcache, hext,
      process_thumbnail_oversized, hsize]
    intro hmem
    exact absurd (by simpa using hext) hmem

/-- Witness for C5's amended statement: the concrete record `r0` on the
generation path in `env0`, whose filesystem reports every file at exactly
the ceiling. -/
theorem thumbnailWorker_oversized_witness :
    (ThumbnailWorker.process_data env0 true (some r0)).generatorCalled = false ∧
    ThumbnailWorker.process_data env0 false (some r0) =
      ⟨some { r0 with fileThumbnailLoaded := true }, PyRet.retNone, false⟩ := by
  obtain ⟨h1, h2⟩ := thumbnailWorker_oversized env0 r0 (by decide) (by decide)
    (by decide) (by decide) (by decide) (by decide)
  exact ⟨h1 true r0 (by decide), h2⟩

/-- Counterexample to C5 as stated: at the oversized record `r0` the
generator is indeed never invoked and `FileThumbnailLoaded` ends `true`, but
the record's thumbnail image stays `none` — the placeholder (default) image
`some r0.defaultThumbnail` is not set. -/
theorem thumbnailWorker_oversized_counterexample :
    thumbSizeCeiling ≤ env0.fileSize (env0.resolveSource r0.statusTip) ∧
    (ThumbnailWorker.process_data env0 false (some r0)).generatorCalled = false ∧
    (ThumbnailWorker.process_data env0 false (some r0)).heap.map
      Record.fileThumbnailLoaded = some true ∧
    (ThumbnailWorker.process_data env0 false (some r0)).heap.map
      Record.thumbnail = some none ∧
    ¬((ThumbnailWorker.process_data env0 false (some r0)).heap.map
        Record.thumbnail = some (some r0.defaultThumbnail)) := by
  decide

theorem countLoop_min (names : List String) :
    ∀ c : Nat, c ≤ 999 →
      countLoop names c =
        min (c + (names.filter fun n => !(pyStartsWith n ".")).length) 1000 := by
  induction names with
  | nil =>
    intro c hc
    simp [countLoop]
    omega
  | cons n rest ih =>
    intro c hc
    cases hn : pyStartsWith n "."
    · by_cases hgt : 999 < c + 1
      · have hc999 : c = 999 := by omega
        subst hc999
        simp [countLoop, hn, hgt]
        omega
      · have hle : c + 1 ≤ 999 := by omega
        simp [countLoop, hn, hgt, ih (c + 1) hle]
        omega
    · simp [countLoop, hn, ih c hc]

/-- C7 (amended): for a live folder record whose sub-records stay live, the
Folder-Count Worker writes onto each sub-record the number of non-hidden
entries (names not starting with a dot) of its walked subtree, capped at
1000 — the loop breaks only after the counter has already reached 1000, so
the stored value is `min(actual, 1000)` and can exceed 999 by exactly one —
and emits one `dataReady` event per sub-record, in order, while the body
returns `None` so no event is emitted for the parent. -/
theorem taskFolderWorker_counts (env : Env) (vals : List Record) :
    TaskFolderWorker.process_data env false (some vals) =
      (some (vals.map (TaskFolderWorker.updateSub env)),
        vals.map (TaskFolderWorker.updateSub env), PyRet.retNone) ∧
    (∀ f : Record, (TaskFolderWorker.updateSub env f).todoCount =
        min ((env.walk f.statusTip).filter fun n => !(pyStartsWith n ".")).length
          1000) ∧
    (∀ f : Record, (TaskFolderWorker.updateSub env f).todoCount ≤ 1000) := by
  refine ⟨rfl, ?_, ?_⟩
  · intro f
    simp [TaskFolderWorker.updateSub, countLoop_min _ 0 (by omega)]
  · intro f
    simp [TaskFolderWorker.updateSub, countLoop_min _ 0 (by omega)]

/-- Counterexample to C7 as stated: in an environment whose walk yields 1000
visible entries, the count stored on the sub-record is 1000, which exceeds
the claimed bound of 999. -/
theorem taskFolderWorker_count_1000_counterexample :
    ((TaskFolderWorker.process_data env2 false (some [sampleRecord])).2.1.map
        Record.todoCount) = [1000] ∧ 999 < 1000 := by
  constructor
  · have hstep : (TaskFolderWorker.process_data env2 false (some [sampleRecord])).2.1
        = [TaskFolderWorker.updateSub env2 sampleRecord] := rfl
    rw [hstep, List.map_cons, List.map_nil]
    have hupd : (TaskFolderWorker.updateSub env2 sampleRecord).todoCount
        = countLoop (env2.walk sampleRecord.statusTip) 0 := by
      simp only [TaskFolderWorker.updateSub]
    rw [hupd]
    have hwalk : env2.walk sampleRecord.statusTip = List.replicate 1000 "e" := by
      simp only [env2]
    rw [hwalk, countLoop_min _ 0 (by omega)]
    have hf : (List.replicate 1000 "e").filter (fun n => !(pyStartsWith n ".")) =
        List.replicate 1000 "e" := by
      apply List.filter_eq_self.mpr
      intro a ha
      rw [List.eq_of_mem_replicate ha]
      decide
    rw [hf, List.length_replicate]
    norm_num
  · omega

theorem dbPhase_fields (env : Env) (r : Record) :
    (dbPhase env r).typeRole = r.typeRole ∧
    (dbPhase env r).frames = r.frames ∧
    (dbPhase env r).seqG1 = r.seqG1 ∧
    (dbPhase env r).seqG3 = r.seqG3 ∧
    (dbPhase env r).seqG4 = r.seqG4 ∧
    (dbPhase env r).entries = r.entries ∧
    (dbPhase env r).sortBySize = r.sortBySize ∧
    (dbPhase env r).fileInfoLoaded = r.fileInfoLoaded := by
  unfold dbPhase
  rcases env.dbDescription with _ | s <;> rcases env.dbFlags with _ | v <;>
    simp <;> split_ifs <;> simp

theorem fourFHead (a b c d e f : String) :
    (toString ([1, 2, 3, 5] : List Nat).length) ++ "f;" ++ a ++ "/" ++ b ++ "/" ++ c
        ++ " " ++ d ++ ":" ++ e ++ ";" ++ f =
      "4f;" ++ (a ++ ("/" ++ (b ++ ("/" ++ (c ++ (" " ++ (d ++ (":" ++ (e ++ (";" ++ f)))))))))) := by
  have h4 : (toString ([1, 2, 3, 5] : List Nat).length) ++ "f;" = "4f;" := by decide
  simp only [String.append_assoc]
  rw [← String.append_assoc, h4]

theorem seqUpdate_frames (env : Env) (q : Record)
    (hframes : q.frames = ["0001", "0002", "0003", "0005"])
    (e0 : Entry) (es : List Entry) (hent : q.entries = e0 :: es) :
    ∃ q' : Record, seqUpdate env q = some q' ∧
      q'.startpath = q.seqG1 ++ "0001" ++ q.seqG3 ++ "." ++ q.seqG4 ∧
      q'.endpath = q.seqG1 ++ "0005" ++ q.seqG3 ++ "." ++ q.seqG4 ∧
      (∃ rest : String, q'.fileDetails = "4f;" ++ rest) ∧
      q'.typeRole = q.typeRole ∧
      q'.fileInfoLoaded = q.fileInfoLoaded := by
  have hmap : List.map pyInt ["0001", "0002", "0003", "0005"] = [1, 2, 3, 5] := by decide
  have hmin : listMin [1, 2, 3, 5] = 1 := by decide
  have hmax : listMax [1, 2, 3, 5] = 5 := by decide
  have hz1 : zfill 1 4 = "0001" := by decide
  have hz5 : zfill 5 4 = "0005" := by decide
  have hlen : ("0001" : String).length = 4 := by decide
  simp only [seqUpdate, hframes, hmap, hmin, hmax, hz1, hz5, hlen, hent,
    List.isEmpty_cons, Bool.false_eq_true, if_false]
  exact ⟨_, rfl, by simp, by simp, ⟨_, fourFHead _ _ _ _ _ _⟩, by simp, by simp⟩

/-- C8: for a live sequence record whose frame list is
`['0001','0002','0003','0005']` (frames 1, 2, 3, 5 at zero-padding 4) and
which still has its filesystem entries, the Metadata Worker returns the
reference and writes a start path whose frame component is the minimum frame
zero-filled to the padding (`0001`), an end path whose frame component is
the maximum frame zero-filled (`0005`), and a detail string whose
frame-count component is `4` (the length of the frame list followed by
`f;`). -/
theorem infoWorker_sequence_frames (env : Env) (r : Record)
    (htype : r.typeRole = RecType.sequenceItem)
    (hframes : r.frames = ["0001", "0002", "0003", "0005"])
    (hnl : r.fileInfoLoaded = false)
    (hdb : env.hasDb = true)
    (hent : r.entries ≠ []) :
    ∃ r' : Record,
      InfoWorker.process_data false env (some r) = (some r', PyRet.retRef) ∧
      r'.startpath = r.seqG1 ++ "0001" ++ r.seqG3 ++ "." ++ r.seqG4 ∧
      r'.endpath = r.seqG1 ++ "0005" ++ r.seqG3 ++ "." ++ r.seqG4 ∧
      ∃ rest : String, r'.fileDetails = "4f;" ++ rest := by
  obtain ⟨ht, hf, hg1, hg3, hg4, he, hs, hl⟩ := dbPhase_fields env r
  obtain ⟨e0, es, hE⟩ : ∃ e0 es, r.entries = e0 :: es := by
    cases hE : r.entries with
    | nil => exact absurd hE hent
    | cons a b => exact ⟨a, b, rfl⟩
  obtain ⟨q', hq', hsp, hep, hfd, hty, hfl⟩ :=
    seqUpdate_frames env (dbPhase env r) (hf.trans hframes) e0 es (he.trans hE)
  have htr : (dbPhase env r).typeRole = RecType.sequenceItem := ht.trans htype
  have hnoFile : ¬(q'.typeRole = RecType.fileItem) := by
    rw [hty, htr]
    simp
  have hpfi : process_file_information env (some r) =
      (some { q' with fileInfoLoaded := true }, PyRet.retRef) := by
    simp only [process_file_information, hnl, hdb, Bool.not_true,
      Bool.false_eq_true, if_false, htr, if_true, hq', finishInfo, hnoFile]
  refine ⟨{ q' with fileInfoLoaded := true }, ?_, ?_, ?_, ?_⟩
  · simp [InfoWorker.process_data, hpfi]
  · simpa [hg1, hg3, hg4] using hsp
  · simpa [hg1, hg3, hg4] using hep
  · simpa using hfd

/-- Witness for C8 at the concrete sequence record `rec3`. -/
theorem infoWorker_sequence_frames_witness :
    ∃ r' : Record,
      InfoWorker.process_data false sampleEnv (some rec3) = (some r', PyRet.retRef) ∧
      r'.startpath = rec3.seqG1 ++ "0001" ++ rec3.seqG3 ++ "." ++ rec3.seqG4 ∧
      r'.endpath = rec3.seqG1 ++ "0005" ++ rec3.seqG3 ++ "." ++ rec3.seqG4 ∧
      ∃ rest : String, r'.fileDetails = "4f;" ++ rest :=
  infoWorker_sequence_frames sampleEnv rec3 rfl rfl rfl rfl (by decide)

end Bookmarks
